import Mathlib

/-!
Verification of the orchestration core of `cerebras-deep-research`
(`src/api.ts`): a browser-resident multi-agent research orchestrator that
fans a query out to the Exa search API, deduplicates collected documents
by URL, drives the Cerebras chat API through a round-robin model cycle
with failure cooldowns, and synthesizes a report.

The development is a shallow embedding of `src/api.ts`:
* JavaScript strings are modelled as `List Char` where character-level
  processing matters (trim / toLowerCase / split / includes / substring),
  and as Lean `String` where only equality is used (URLs, titles, model
  names).  All embedded operations are executable.
* `Date.now()` timestamps are `Nat` milliseconds, supplied as explicit
  parameters.  JS subtraction of timestamps is only ever compared against
  positive constants, where truncated `Nat` subtraction agrees with JS
  number subtraction for the orderings that actually occur.
* Network responses (`fetch` results, Exa result lists, Cerebras chat
  completions) are oracle parameters given to the embedded functions.
* `Math.random()` draws are passed as explicit parameters
  (`Math.floor(Math.random() * 3)` becomes a `Nat` argument).
-/

namespace DeepResearch

/-! ## JavaScript string primitives (exact-semantics helpers)

`jsIncludes`, `jsTrim`, `jsToLower`, `jsSplit` model `String.prototype`'s
`includes`, `trim`, `toLowerCase` and `split(/[|,]/)` on `List Char`.
-/

/-- `listStartsWith s pat` : does `s` start with `pat`? -/
def listStartsWith : List Char → List Char → Bool
  | _, [] => true
  | [], _ :: _ => false
  | c :: cs, p :: ps => c == p && listStartsWith cs ps

/-- JS `s.includes(pat)` : does `pat` occur contiguously inside `s`? -/
def jsIncludes (s pat : List Char) : Bool :=
  match s with
  | [] => listStartsWith [] pat
  | _ :: rest => listStartsWith s pat || jsIncludes rest pat

/-- JS `s.trim()` : strip whitespace from both ends. -/
def jsTrim (s : List Char) : List Char :=
  ((s.dropWhile Char.isWhitespace).reverse.dropWhile Char.isWhitespace).reverse

/-- JS `s.toLowerCase()` (ASCII case folding, which is all the source needs). -/
def jsToLower (s : List Char) : List Char :=
  s.map Char.toLower

/-- JS `s.split(/[...]/)` for a character-class regex: split at every
separator character, keeping empty pieces (JS semantics). -/
def jsSplit (p : Char → Bool) : List Char → List (List Char)
  | [] => [[]]
  | c :: rest =>
    if p c then [] :: jsSplit p rest
    else
      match jsSplit p rest with
      | [] => [[c]]
      | g :: gs => (c :: g) :: gs

/-- String-level wrapper for `jsIncludes` (JS `msg.includes(pat)`). -/
def strIncludes (s pat : String) : Bool :=
  jsIncludes s.data pat.data

/-! ## Exa search client (`ExaAPIService`, `src/api.ts` lines 97-332)

`search` wraps one HTTP round trip.  The embedding takes the HTTP
response and the decoded result list as oracle inputs.  The development
models the `isProduction = false` path (direct API call; the
production-only 400-fallback branch at lines 227-247 is not taken). -/

/-- One Exa search result together with the outcome of the follow-up
`getContents` call for its URL: `fetched = none` models
`contents.length === 0`, `fetched = some text` models `content.text || ''`. -/
structure ExaResult where
  url : String
  title : String
  fetched : Option String
deriving Repr, DecidableEq, Inhabited

/-- An HTTP response as observed by the client (`response.ok`,
`response.status`, `response.statusText`). -/
structure HttpResponse where
  ok : Bool
  status : Nat
  statusText : String
deriving Repr, DecidableEq

/-- Error message thrown on HTTP 429 (line 211). -/
def exaRateLimitMsg : String :=
  "Exa API rate limit exceeded. Please wait a moment and try again."

/-- Error message thrown on HTTP 402 (line 215). -/
def exaCreditsMsg : String :=
  "Exa API credits exhausted. Please top up your account at dashboard.exa.ai to continue using the service."

/-- Error message thrown on HTTP 401 (line 219). -/
def exaAuthMsg : String :=
  "Exa API authentication failed. Please check your API key."

/-- Error message thrown on HTTP 403 (line 223). -/
def exaForbiddenMsg : String :=
  "Exa API access forbidden. Please check your API key permissions."

/-- The `try`-block body of `ExaAPIService.search` (lines 162-254):
classify the response, throwing the status-specific errors, otherwise
return `data.results || []`. -/
def searchTryBody (resp : HttpResponse) (results : List ExaResult) :
    Except String (List ExaResult) :=
  if !resp.ok then
    if resp.status = 429 then .error exaRateLimitMsg
    else if resp.status = 402 then .error exaCreditsMsg
    else if resp.status = 401 then .error exaAuthMsg
    else if resp.status = 403 then .error exaForbiddenMsg
    else .error ("Exa API error: " ++ toString resp.status ++ " " ++ resp.statusText)
  else .ok results

/-- `ExaAPIService.search` (lines 152-267): the `try` body wrapped in the
`catch` of lines 255-266, which re-throws only errors whose message
includes `"credits exhausted"` or `"402"` and converts every other error
into an empty result list. -/
def search (resp : HttpResponse) (results : List ExaResult) :
    Except String (List ExaResult) :=
  match searchTryBody resp results with
  | .ok r => .ok r
  | .error msg =>
    if strIncludes msg "credits exhausted" || strIncludes msg "402" then .error msg
    else .ok []

/-! ## Orchestrator preflight (`LeadResearcher.orchestrateResearch`,
lines 1187-1248) -/

/-- The fatal error raised when the preflight search reports exhausted
credits (line 1203). -/
def preflightFatalMsg : String :=
  "Research cannot start: Exa API credits have been exhausted. Please top up your account at dashboard.exa.ai to continue using the service."

/-- The 4 fixed specialist task descriptions (lines 1234-1239). -/
def tasks : List String :=
  ["Core concepts and fundamental principles",
   "Latest developments and recent breakthroughs",
   "Key players, companies, and market dynamics",
   "Future implications and emerging trends"]

/-- The preflight `try`/`catch` of lines 1196-1207: a search error whose
message includes the quota markers aborts the run, any other outcome lets
the run continue. -/
def orchestratePreflight (searchOutcome : Except String (List ExaResult)) :
    Except String Unit :=
  match searchOutcome with
  | .ok _ => .ok ()
  | .error msg =>
    if strIncludes msg "credits exhausted" || strIncludes msg "402" then
      .error preflightFatalMsg
    else .ok ()

/-- The start of `orchestrateResearch`: run the preflight search on the
given response; on fatal quota failure reject before any specialist agent
exists, otherwise create the 4 agents (lines 1241-1248) and report how
many were launched. -/
def orchestrateStart (resp : HttpResponse) (results : List ExaResult) :
    Except String Nat :=
  match orchestratePreflight (search resp results) with
  | .error msg => .error msg
  | .ok () => .ok tasks.length

/-! ### C4 theorems -/

/-- C4, counterexample: on HTTP 401 `search` does NOT raise a fatal
authentication condition to its caller — the `catch` at lines 255-266
swallows the thrown authentication error (its message contains neither
"credits exhausted" nor "402") and returns an empty result list.  The
same happens on HTTP 403. -/
theorem c4_auth_not_fatal_counterexample :
    search ⟨false, 401, "Unauthorized"⟩ [] = .ok [] ∧
    search ⟨false, 403, "Forbidden"⟩ [] = .ok [] :=
  ⟨rfl, rfl⟩

/-- C4 (amended): `search` propagates only the quota-exhaustion condition:
on HTTP 402 it raises the fatal credits-exhausted error, while HTTP 401,
403, 429 — like any other non-success response — are logged and converted
to an empty result list so the caller continues with degraded data; a
successful response returns its results. -/
theorem c4_search_error_handling (resp : HttpResponse) (results : List ExaResult) :
    (resp.ok = false → resp.status = 402 → search resp results = .error exaCreditsMsg) ∧
    (resp.ok = false → resp.status = 401 → search resp results = .ok []) ∧
    (resp.ok = false → resp.status = 403 → search resp results = .ok []) ∧
    (resp.ok = false → resp.status = 429 → search resp results = .ok []) ∧
    (resp.ok = true → search resp results = .ok results) := by
  obtain ⟨ok, status, statusText⟩ := resp
  refine ⟨?_, ?_, ?_, ?_, ?_⟩ <;> rintro rfl <;> try rintro rfl
  · rfl
  · rfl
  · rfl
  · rfl
  · rfl

/-- C4 witness: the amended theorem applied at concrete responses. -/
theorem c4_search_error_handling_witness :
    (false = false ∧ (402 : Nat) = 402) ∧
    search ⟨false, 402, "Payment Required"⟩ [] = .error exaCreditsMsg ∧
    search ⟨false, 500, "Server Error"⟩ [⟨"https://a.com", "t", some "x"⟩] = .ok [] := by
  exact ⟨⟨rfl, rfl⟩, (c4_search_error_handling ⟨false, 402, "Payment Required"⟩ []).1 rfl rfl, rfl⟩

/-! ### C6 theorems -/

/-- C6 (confirmed): a quota-exhausted (HTTP 402) response from the search
API during preflight makes `orchestrateResearch` reject with the fatal
quota error before any specialist agent is created, and any other
preflight error (a search error message without the quota markers) is
logged and the run continues with all 4 agents launched; a successful
preflight search also continues. -/
theorem c6_preflight_quota_abort (results : List ExaResult) :
    (orchestrateStart ⟨false, 402, "Payment Required"⟩ results = .error preflightFatalMsg) ∧
    (∀ resp : HttpResponse, resp.ok = true → orchestrateStart resp results = .ok 4) ∧
    (∀ msg : String,
      strIncludes msg "credits exhausted" = false → strIncludes msg "402" = false →
      orchestratePreflight (.error msg) = .ok ()) := by
  refine ⟨rfl, ?_, ?_⟩
  · rintro ⟨_, status, statusText⟩ rfl
    rfl
  · intro msg h1 h2
    simp [orchestratePreflight, h1, h2]

/-- C6 witness: the theorem applied at concrete inputs; the preflight
rejects on 402 before any agent exists, and a non-quota error (here the
thrown "key not configured" message) lets the run continue. -/
theorem c6_preflight_quota_abort_witness :
    orchestrateStart ⟨false, 402, "Payment Required"⟩ [] = .error preflightFatalMsg ∧
    (strIncludes "Exa API key not configured" "credits exhausted" = false ∧
      strIncludes "Exa API key not configured" "402" = false) ∧
    orchestratePreflight (.error "Exa API key not configured") = .ok () := by
  exact ⟨(c6_preflight_quota_abort []).1, ⟨by decide, by decide⟩,
    (c6_preflight_quota_abort []).2.2 "Exa API key not configured" (by decide) (by decide)⟩

/-! ## Cross-agent URL deduplication (`SpecialistAgent.executeTask`,
lines 899-1057, and `LeadResearcher.globalSeenUrls`, line 1154)

The 4 specialist agents run concurrently on the JS event loop and share
one `globalSeenUrls` set.  The per-result body at lines 927-977 (and its
copy in the broader-search loop at lines 985-1024) performs
`has(url)` / `add(url)` synchronously — no `await` between them — so its
check-then-claim is atomic; the event loop interleaves whole per-result
steps.  `collectStep` embeds that body and `collectRun` folds it over an
arbitrary interleaving of (agent, result) steps. -/

/-- A collected source record; the fields of `ResearchSource` that the
claims reference (scores, word count and derived domain are not used by
any claim and are omitted). -/
structure ResearchSource where
  url : String
  title : String
  content : String
deriving Repr, DecidableEq, Inhabited

/-- The per-result body of `executeTask` (lines 927-977): skip a URL the
global set has seen, otherwise mark it seen, fetch its content, and emit a
source record only when the contents call returned something. -/
def collectStep (seen : List String) (acc : List (Nat × ResearchSource))
    (agentId : Nat) (r : ExaResult) : List String × List (Nat × ResearchSource) :=
  if seen.contains r.url then (seen, acc)
  else
    let seen' := r.url :: seen
    match r.fetched with
    | none => (seen', acc)
    | some text => (seen', acc ++ [(agentId, ⟨r.url, r.title, text⟩)])

/-- A whole run's source collection: fold `collectStep` over the
event-loop interleaving of all agents' per-result steps, starting from a
given content of the shared seen-URL set. -/
def collectRun (seen₀ : List String) (steps : List (Nat × ExaResult)) :
    List String × List (Nat × ResearchSource) :=
  steps.foldl (fun p step => collectStep p.1 p.2 step.1 step.2) (seen₀, [])

/-- Modelled from the spec: the spec's "normalized URL (host + path,
query/fragment stripped)" — no normalization function exists in
`src/api.ts`, which compares raw `result.url` strings; this definition
follows the spec's words (strip everything from the first `?` or `#` on)
so the spec's deduplication key can be compared with the code's. -/
def normalizeUrl (url : String) : String :=
  String.mk (url.data.takeWhile (fun c => !(c == '?' || c == '#')))

/-- Every source collected so far has its URL recorded in the seen set. -/
def collectInv (seen : List String) (acc : List (Nat × ResearchSource)) : Prop :=
  ∀ p ∈ acc, seen.contains p.2.url = true

theorem collectStep_inv {seen acc agentId r} (h : collectInv seen acc) :
    collectInv (collectStep seen acc agentId r).1 (collectStep seen acc agentId r).2 := by
  unfold collectStep
  split
  · exact h
  · intro p hp
    match hr : r.fetched with
    | none =>
      simp only [hr] at hp
      have := List.mem_of_elem_eq_true (h p hp)
      exact List.elem_eq_true_of_mem (List.mem_cons_of_mem _ this)
    | some text =>
      simp only [hr] at hp
      rcases List.mem_append.1 hp with hp' | hp'
      · have := List.mem_of_elem_eq_true (h p hp')
        exact List.elem_eq_true_of_mem (List.mem_cons_of_mem _ this)
      · simp only [List.mem_singleton] at hp'
        subst hp'
        exact List.elem_eq_true_of_mem (List.mem_cons_self _ _)

theorem collectStep_pairwise {seen acc agentId r} (hinv : collectInv seen acc)
    (hp : acc.Pairwise (fun a b => a.2.url ≠ b.2.url)) :
    (collectStep seen acc agentId r).2.Pairwise (fun a b => a.2.url ≠ b.2.url) := by
  unfold collectStep
  split
  · exact hp
  · next hseen =>
    match hr : r.fetched with
    | none => exact hp
    | some text =>
      simp only []
      refine List.pairwise_append.2 ⟨hp, List.pairwise_singleton _ _, ?_⟩
      intro a ha b hb
      simp only [List.mem_singleton] at hb
      subst hb
      intro hurl
      have := List.mem_of_elem_eq_true (hinv a ha)
      rw [hurl] at this
      exact hseen (List.elem_eq_true_of_mem this)

theorem collectRun_aux (steps : List (Nat × ExaResult)) :
    ∀ seen acc, collectInv seen acc → acc.Pairwise (fun a b => a.2.url ≠ b.2.url) →
    (steps.foldl (fun p step => collectStep p.1 p.2 step.1 step.2) (seen, acc)).2.Pairwise
      (fun a b => a.2.url ≠ b.2.url) := by
  induction steps with
  | nil => intro seen acc _ hp; exact hp
  | cons s rest ih =>
    intro seen acc hinv hp
    simp only [List.foldl_cons]
    exact ih _ _ (collectStep_inv hinv) (collectStep_pairwise hinv hp)

/-! ### C1 theorems -/

/-- C1, counterexample: deduplication is by the raw URL string, not by the
normalized host+path: two results whose URLs differ only in their query
string are both collected (by two different agents) in the same run, so
the final source list contains two records sharing one normalized URL. -/
theorem c1_normalized_dedup_counterexample :
    letI out := (collectRun []
      [(1, ⟨"https://example.com/page?a=1", "t1", some "c1"⟩),
       (2, ⟨"https://example.com/page?a=2", "t2", some "c2"⟩)]).2
    out.length = 2 ∧
    (out.getD 0 default).2.url ≠ (out.getD 1 default).2.url ∧
    normalizeUrl (out.getD 0 default).2.url = normalizeUrl (out.getD 1 default).2.url ∧
    (out.getD 0 default).1 ≠ (out.getD 1 default).1 := by
  refine ⟨rfl, by decide, by decide, by decide⟩

/-- C1 (amended): in every run starting from the cleared seen-URL set, no
two collected Source records — across all agents and any event-loop
interleaving — share the same raw URL string: once a URL is added to the
global seen set it is never collected again by any agent in that run.
(Deduplication is by the exact `result.url` string; URLs differing only
in query or fragment count as distinct.) -/
theorem c1_dedup_exact_url (steps : List (Nat × ExaResult)) :
    ((collectRun [] steps).2).Pairwise (fun a b => a.2.url ≠ b.2.url) :=
  collectRun_aux steps [] [] (by intro p hp; cases hp) List.Pairwise.nil

/-! ### C9 theorems -/

/-- The `LeadResearcher` instance state that survives across runs
(line 1154). -/
structure ResearcherState where
  globalSeenUrls : List String
deriving Repr, DecidableEq

/-- `orchestrateResearch`'s treatment of the seen-URL set (lines
1191-1192): the run begins with `this.globalSeenUrls.clear()`, then the
agents' collection steps fill it again; the final set is what the
instance carries into the next run. -/
def orchestrateRun (_s : ResearcherState) (steps : List (Nat × ExaResult)) :
    ResearcherState × List (Nat × ResearchSource) :=
  let cleared : List String := []
  let out := collectRun cleared steps
  (⟨out.1⟩, out.2)

/-- C9 (confirmed): `orchestrateResearch` clears the global seen-URL set
at the start of every run, so deduplication is scoped to a single run:
the sources a run collects are independent of whatever seen-URL state the
`LeadResearcher` instance carried in, and running the same steps again on
the same instance collects exactly the same sources — a URL collected in
one run is collected again in the next. -/
theorem c9_seen_urls_cleared_per_run (s₁ s₂ : ResearcherState)
    (steps : List (Nat × ExaResult)) :
    (orchestrateRun s₁ steps).2 = (orchestrateRun s₂ steps).2 ∧
    (orchestrateRun (orchestrateRun s₁ steps).1 steps).2 = (orchestrateRun s₁ steps).2 :=
  ⟨rfl, rfl⟩

/-! ## Per-task source targets and the collection loop
(`SpecialistAgent.getSourceCountForQuery`, lines 1136-1147, and the
query loop of `SpecialistAgent.executeTask`, lines 918-1044)

`executeTask` iterates over its (3) generated queries; for each query it
draws a fresh target from `getSourceCountForQuery`, searches, processes
the results against the shared seen set, and if still short of the target
runs one broader search.  A `QueryRound` packages one iteration's oracle
inputs: the random target draw, the search results, and the
broader-search results. -/

/-- `getSourceCountForQuery` (lines 1136-1147): base count 12 plus
`Math.floor(Math.random() * 3) - 1`, clamped into [11, 13].  `rand3` is
the `Math.floor(Math.random() * 3)` draw. -/
def getSourceCountForQuery (rand3 : Nat) : Nat :=
  let baseCount : Int := 12
  let randomFactor : Int := (rand3 : Int) - 1
  let finalCount : Int := baseCount + randomFactor
  (max 11 (min 13 finalCount)).toNat

/-- One query iteration's oracle inputs for `executeTask`. -/
structure QueryRound where
  target : Nat
  results : List ExaResult
  broaderResults : List ExaResult
deriving Repr, Inhabited

/-- The per-result loop of `executeTask` (lines 927-978, repeated at
985-1025 for the broader search): skip seen URLs, claim new ones, push a
source when content came back, and break out of the loop as soon as the
collected count reaches the target — the count is checked only AFTER each
push. -/
def processResults (target : Nat) : List ExaResult → List String → List ResearchSource →
    List String × List ResearchSource
  | [], seen, acc => (seen, acc)
  | r :: rs, seen, acc =>
    if seen.contains r.url then processResults target rs seen acc
    else
      let seen' := r.url :: seen
      match r.fetched with
      | none => processResults target rs seen' acc
      | some text =>
        let acc' := acc ++ [⟨r.url, r.title, text⟩]
        if target ≤ acc'.length then (seen', acc')
        else processResults target rs seen' acc'

/-- One iteration of the `for (const query of queries)` loop (lines
918-1044): process the query's results; if the task is still short of
this query's target, process the broader-search results too. -/
def runQuery (st : List String × List ResearchSource) (round : QueryRound) :
    List String × List ResearchSource :=
  let st' := processResults round.target round.results st.1 st.2
  if st'.2.length < round.target then
    processResults round.target round.broaderResults st'.1 st'.2
  else st'

/-- The whole query loop of `executeTask`: fold the per-query iteration
over the generated query rounds, starting from an empty source list and
the given shared seen set. -/
def executeTask (rounds : List QueryRound) (seen₀ : List String) :
    List String × List ResearchSource :=
  rounds.foldl runQuery (seen₀, [])

/-- A result with a distinct URL, always fetched, used as concrete input. -/
def mkResult (i : Nat) : ExaResult :=
  ⟨"https://site" ++ toString i ++ ".com/a", "title " ++ toString i, some "content"⟩

/-- 18 distinct fetched results offered to the first query. -/
def round1Results : List ExaResult :=
  (List.range 18).map mkResult

/-- The failing run for C5: the first query draws target 13 and fills it;
the second and third queries draw target 11 but each still pushes one more
source before their after-push check fires. -/
def c5FailingRounds : List QueryRound :=
  [⟨13, round1Results, []⟩,
   ⟨11, [mkResult 100], []⟩,
   ⟨11, [mkResult 101], []⟩]

/-! ### C5 theorem -/

/-- C5 (code bug): the targets drawn by `getSourceCountForQuery` do lie
in [11, 13] (so four draws sum into [44, 52]), but the task does NOT stop
at its target: because each query iteration draws a fresh target and the
target check runs only after a push, a task whose first query filled 13
sources still pushes one more source in each later query iteration.  On
the concrete failing input (targets 13, 11, 11 — all legal draws) the
task collects 15 sources, exceeding every target drawn in the run and the
"11-13 sources per agent = 44-52 total" bound documented at lines
1137-1145 of the source. -/
theorem c5_target_bounds_and_overflow :
    (∀ rand3 : Nat, 11 ≤ getSourceCountForQuery rand3 ∧ getSourceCountForQuery rand3 ≤ 13) ∧
    (∀ r1 r2 r3 r4 : Nat,
      44 ≤ getSourceCountForQuery r1 + getSourceCountForQuery r2 +
           getSourceCountForQuery r3 + getSourceCountForQuery r4 ∧
      getSourceCountForQuery r1 + getSourceCountForQuery r2 +
           getSourceCountForQuery r3 + getSourceCountForQuery r4 ≤ 52) ∧
    (getSourceCountForQuery 2 = 13 ∧ getSourceCountForQuery 0 = 11) ∧
    ((executeTask c5FailingRounds []).2.length = 15 ∧
      c5FailingRounds.map QueryRound.target = [13, 11, 11]) := by
  refine ⟨?_, ?_, ⟨by decide, by decide⟩, ⟨by decide, by decide⟩⟩
  · intro rand3
    simp only [getSourceCountForQuery]
    omega
  · intro r1 r2 r3 r4
    have h1 := fun r => (by simp only [getSourceCountForQuery]; omega :
      11 ≤ getSourceCountForQuery r ∧ getSourceCountForQuery r ≤ 13)
    obtain ⟨a1, b1⟩ := h1 r1
    obtain ⟨a2, b2⟩ := h1 r2
    obtain ⟨a3, b3⟩ := h1 r3
    obtain ⟨a4, b4⟩ := h1 r4
    omega

/-! ## Mentioned-facts tracking (`LeadResearcher.synthesizeFindings`,
lines 1896-1904)

After each generated section, the extracted-facts reply is split on
`/[|,]/`; each piece is trimmed, lowercased, and — when longer than 3
characters — added to the `mentionedFacts` JS `Set`.  A JS `Set` keeps
first-insertion order and ignores re-insertions, which `setAdd` models on
a duplicate-free list. -/

/-- JS `Set.prototype.add` on an insertion-ordered list: append only if
absent. -/
def setAdd (l : List (List Char)) (x : List Char) : List (List Char) :=
  if l.contains x then l else l ++ [x]

/-- The `forEach` body at lines 1898-1903: trim and lowercase the piece,
drop it if its length is ≤ 3, otherwise insert it into the fact set. -/
def addFact (acc : List (List Char)) (fact : List Char) : List (List Char) :=
  if 3 < (jsToLower (jsTrim fact)).length then setAdd acc (jsToLower (jsTrim fact)) else acc

/-- The fact-merge step at lines 1896-1904: if the extracted reply is
non-blank, split it on `|` and `,` and fold every piece into the running
fact set. -/
def mergeFacts (mentionedFacts : List (List Char)) (extractedFacts : List Char) :
    List (List Char) :=
  if jsTrim extractedFacts ≠ [] then
    (jsSplit (fun c => c == '|' || c == ',') extractedFacts).foldl addFact mentionedFacts
  else mentionedFacts

theorem setAdd_sublist (l : List (List Char)) (x : List Char) :
    List.Sublist l (setAdd l x) := by
  unfold setAdd
  split
  · exact List.Sublist.refl l
  · exact List.sublist_append_left l [x]

theorem addFact_sublist (acc : List (List Char)) (fact : List Char) :
    List.Sublist acc (addFact acc fact) := by
  unfold addFact
  split
  · exact setAdd_sublist _ _
  · exact List.Sublist.refl acc

theorem foldl_addFact_sublist (facts : List (List Char)) :
    ∀ acc, List.Sublist acc (facts.foldl addFact acc) := by
  induction facts with
  | nil => intro acc; exact List.Sublist.refl acc
  | cons f fs ih =>
    intro acc
    exact (addFact_sublist acc f).trans (ih (addFact acc f))

theorem mem_setAdd_self (l : List (List Char)) (x : List Char) : x ∈ setAdd l x := by
  unfold setAdd
  split
  · next h => exact List.mem_of_elem_eq_true h
  · exact List.mem_append_right l (List.mem_singleton.2 rfl)

theorem addFact_eq_of_done (acc : List (List Char)) (fact : List Char)
    (h : 3 < (jsToLower (jsTrim fact)).length → jsToLower (jsTrim fact) ∈ acc) :
    addFact acc fact = acc := by
  unfold addFact setAdd
  split
  · next hlen =>
    split
    · rfl
    · next hc => exact absurd (List.elem_eq_true_of_mem (h hlen)) (by simp_all)
  · rfl

theorem mem_foldl_addFact (facts : List (List Char)) :
    ∀ acc f, f ∈ facts → 3 < (jsToLower (jsTrim f)).length →
    jsToLower (jsTrim f) ∈ facts.foldl addFact acc := by
  induction facts with
  | nil => intro acc f h; cases h
  | cons g gs ih =>
    intro acc f hf hlen
    rcases List.mem_cons.1 hf with rfl | hf'
    · simp only [List.foldl_cons]
      refine (foldl_addFact_sublist gs (addFact acc f)).mem ?_
      unfold addFact
      rw [if_pos hlen]
      exact mem_setAdd_self _ _
    · exact ih (addFact acc g) f hf' hlen

theorem foldl_addFact_idem (facts : List (List Char)) (acc : List (List Char))
    (h : ∀ f ∈ facts, 3 < (jsToLower (jsTrim f)).length → jsToLower (jsTrim f) ∈ acc) :
    facts.foldl addFact acc = acc := by
  induction facts with
  | nil => rfl
  | cons g gs ih =>
    simp only [List.foldl_cons]
    rw [addFact_eq_of_done acc g (h g (List.mem_cons_self g gs))]
    exact ih (fun f hf => h f (List.mem_cons_of_mem g hf))

/-! ### C8 theorem -/

/-- C8 (confirmed): the fact-extraction merge is idempotent and monotone:
each fact piece is trimmed, lowercased, dropped when 3 characters or
shorter, and inserted into a set; merging the same extracted text twice
yields exactly the set produced by merging it once, and the running fact
set only ever grows (the previous set survives, in order, inside the
merged one). -/
theorem c8_merge_facts_idempotent_monotone (mentionedFacts : List (List Char))
    (extractedFacts : List Char) :
    mergeFacts (mergeFacts mentionedFacts extractedFacts) extractedFacts =
      mergeFacts mentionedFacts extractedFacts ∧
    List.Sublist mentionedFacts (mergeFacts mentionedFacts extractedFacts) := by
  constructor
  · unfold mergeFacts
    split
    · exact foldl_addFact_idem _ _ (fun f hf hlen => mem_foldl_addFact _ mentionedFacts f hf hlen)
    · rfl
  · unfold mergeFacts
    split
    · exact foldl_addFact_sublist _ mentionedFacts
    · exact List.Sublist.refl _

/-! ## Prompt truncation (`CerebrasAPIService.chatWithCycling`,
lines 768-787, and `preparePromptWithNoThink`, lines 879-885)

`estimatedTokens = (prompt.length + (systemPrompt?.length || 0)) / 3.5`
exceeds 7000 exactly when the combined character count exceeds
`7000 * 3.5 = 24500`; the caps are `Math.floor(7000 * 3.5 * 0.8) = 19600`
characters for the user prompt and `Math.floor(7000 * 3.5 * 0.2) = 4900`
for the system prompt (both floors are exact under IEEE doubles).
JS `substring(0, n)` keeps the FIRST `n` characters. -/

/-- The `'...'` truncation marker. -/
def truncationMarker : List Char := "...".data

/-- The `/no_think` prefix added for the qwen model. -/
def noThinkPrefix : List Char := "/no_think\n\n".data

/-- `preparePromptWithNoThink` (lines 879-885). -/
def preparePromptWithNoThink (prompt : List Char) (model : String) : List Char :=
  if model = "qwen-3-32b" then noThinkPrefix ++ prompt else prompt

/-- Length of an optional system prompt (`systemPrompt?.length || 0`). -/
def sysLength : Option (List Char) → Nat
  | some sp => sp.length
  | none => 0

/-- The token-budget truncation of `chatWithCycling` (lines 768-787):
returns the (user prompt, system prompt) pair actually sent. -/
def truncatePrompts (prompt : List Char) (systemPrompt : Option (List Char))
    (selectedModel : String) : List Char × Option (List Char) :=
  let adjustedPrompt := preparePromptWithNoThink prompt selectedModel
  if prompt.length + sysLength systemPrompt > 24500 then
    let maxPromptChars : Nat := 19600
    let maxSystemChars : Nat := 4900
    let adjustedSystemPrompt :=
      match systemPrompt with
      | some sp => if sp.length > maxSystemChars
          then some (sp.take maxSystemChars ++ truncationMarker) else some sp
      | none => none
    let basePrompt := if selectedModel = "qwen-3-32b" then prompt else adjustedPrompt
    let adjustedPrompt' :=
      if basePrompt.length > maxPromptChars then
        if selectedModel = "qwen-3-32b" then
          noThinkPrefix ++ (basePrompt.take maxPromptChars ++ truncationMarker)
        else basePrompt.take maxPromptChars ++ truncationMarker
      else adjustedPrompt
    (adjustedPrompt', adjustedSystemPrompt)
  else (adjustedPrompt, systemPrompt)

/-- A 24501-character prompt whose most recent character is `Z`. -/
def c7BigPrompt : List Char := List.replicate 24500 'a' ++ ['Z']

/-! ### C7 theorems -/

/-- C7, counterexample: truncation does NOT keep the most recent content:
`substring(0, maxPromptChars)` keeps the OLDEST (leading) characters.  On
a 24501-character prompt ending in `Z`, the sent prompt is the first
19600 characters plus the marker, and the most recent character `Z` is
gone. -/
theorem c7_keeps_oldest_counterexample :
    'Z' ∈ c7BigPrompt ∧
    (truncatePrompts c7BigPrompt none "llama-3.3-70b").1 =
      List.replicate 19600 'a' ++ truncationMarker ∧
    'Z' ∉ (truncatePrompts c7BigPrompt none "llama-3.3-70b").1 := by
  have hlen : c7BigPrompt.length = 24501 := by
    unfold c7BigPrompt
    rw [List.length_append, List.length_replicate]
    rfl
  have htake : c7BigPrompt.take 19600 = List.replicate 19600 'a' := by
    unfold c7BigPrompt
    rw [List.take_append_of_le_length (by rw [List.length_replicate]; norm_num),
      List.take_replicate]
    rw [show (19600 ⊓ 24500 : Nat) = 19600 by omega]
  have key : ∀ P : List Char, P.length = 24501 → P.take 19600 = List.replicate 19600 'a' →
      (truncatePrompts P none "llama-3.3-70b").1 =
        List.replicate 19600 'a' ++ truncationMarker := by
    intro P hPlen hPtake
    unfold truncatePrompts preparePromptWithNoThink sysLength
    dsimp only
    split_ifs
    · exact absurd ‹"llama-3.3-70b" = "qwen-3-32b"› (by decide)
    · exact absurd ‹"llama-3.3-70b" = "qwen-3-32b"› (by decide)
    · rw [hPtake]
    · omega
    · exact absurd ‹"llama-3.3-70b" = "qwen-3-32b"› (by decide)
    · omega
  have heq := key c7BigPrompt hlen htake
  refine ⟨?_, heq, ?_⟩
  · exact List.mem_append_right _ (List.mem_singleton.2 rfl)
  · rw [heq]
    intro hmem
    rcases List.mem_append.1 hmem with h | h
    · exact absurd (List.eq_of_mem_replicate h) (by decide)
    · exact absurd h (by decide)

/-- C7 (amended): whenever the combined prompt exceeds the 24500-character
(≈7000-token at 3.5 chars/token) budget, `chatWithCycling` truncates each
over-long part to its fixed allocation — 19600 characters (80% of the
budget) for the user prompt and 4900 characters (20%) for the system
prompt — keeping the LEADING (oldest) content of each and appending the
`...` marker; a part within its allocation is sent unchanged, and when
the combined length is within budget nothing is truncated. -/
theorem c7_truncation_allocations (prompt : List Char) (sp : List Char) (model : String)
    (hq : model ≠ "qwen-3-32b")
    (hover : prompt.length + sp.length > 24500) :
    (prompt.length > 19600 →
      (truncatePrompts prompt (some sp) model).1 = prompt.take 19600 ++ truncationMarker) ∧
    (¬ prompt.length > 19600 → (truncatePrompts prompt (some sp) model).1 = prompt) ∧
    (sp.length > 4900 →
      (truncatePrompts prompt (some sp) model).2 = some (sp.take 4900 ++ truncationMarker)) ∧
    (¬ sp.length > 4900 → (truncatePrompts prompt (some sp) model).2 = some sp) ∧
    (∀ p q : List Char, p.length + q.length ≤ 24500 →
      truncatePrompts p (some q) model = (p, some q)) := by
  refine ⟨?_, ?_, ?_, ?_, ?_⟩ <;>
    [skip; skip; skip; skip; intro p q hpq] <;>
    [intro hp; intro hp; intro hs; intro hs; skip] <;>
    unfold truncatePrompts preparePromptWithNoThink sysLength <;>
    dsimp only <;>
    split_ifs <;>
    first
      | rfl
      | omega

/-- C7 witness: the amended theorem applied at a concrete over-budget
prompt (24501 characters of `b`, system prompt 5000 characters of `s`). -/
theorem c7_truncation_allocations_witness :
    ((List.replicate 24501 'b').length + (List.replicate 5000 's').length > 24500 ∧
      (List.replicate 24501 'b').length > 19600 ∧
      (List.replicate 5000 's').length > 4900) ∧
    (truncatePrompts (List.replicate 24501 'b') (some (List.replicate 5000 's'))
        "llama-3.3-70b").1 =
      (List.replicate 24501 'b').take 19600 ++ truncationMarker ∧
    (truncatePrompts (List.replicate 24501 'b') (some (List.replicate 5000 's'))
        "llama-3.3-70b").2 =
      some ((List.replicate 5000 's').take 4900 ++ truncationMarker) := by
  have h := c7_truncation_allocations (List.replicate 24501 'b') (List.replicate 5000 's')
    "llama-3.3-70b" (by decide) (by rw [List.length_replicate, List.length_replicate]; norm_num)
  refine ⟨⟨?_, ?_, ?_⟩, h.1 ?_, h.2.2.1 ?_⟩ <;>
    simp only [List.length_replicate] <;> norm_num

/-! ## Cerebras model cycling, health and cooldown
(`CerebrasAPIService`, `src/api.ts` lines 334-886)

Per-model bookkeeping lives in the key-indexed fields
`modelRequestCounts`, `modelRequestWindows`, `modelHealth`,
`modelFailureCount`, `modelLastFailure`; the service additionally keeps
`healthyModels`, `lastHealthCheck` and `currentModelIndex`.  The
embedding gathers the per-model fields into `ModelState` and the service
fields into `CerebrasState`, with the model map as a function from model
names. -/

/-- The per-model slice of the service's key-indexed tracking fields. -/
structure ModelState where
  requestCount : Nat
  requestWindow : Nat
  health : Bool
  failureCount : Nat
  lastFailure : Nat
deriving Repr, DecidableEq

/-- The 4 configured models (lines 342-347). -/
def availableModels : List String :=
  ["llama-3.3-70b", "llama-3.1-8b", "llama-4-scout-17b-16e-instruct", "qwen-3-32b"]

/-- The 2-minute cooldown (line 477). -/
def cooldownTime : Nat := 120000

/-- The mutable state of `CerebrasAPIService` relevant to cycling. -/
structure CerebrasState where
  models : String → ModelState
  healthyModels : List String
  lastHealthCheck : Nat
  currentModelIndex : Nat

/-- Point-update of the model map. -/
def setModel (f : String → ModelState) (m : String) (st : ModelState) :
    String → ModelState :=
  fun m' => if m' = m then st else f m'

/-- The per-model state right after `setApiKey` (lines 371-379): healthy,
zero failures; request counters default to 0 / window 0 (JS `undefined`
reads as falsy and is initialized on first use). -/
def initModelState : ModelState := ⟨0, 0, true, 0, 0⟩

/-- The service state right after construction + `setApiKey`
(lines 363-379): all models healthy, `healthyModels` the full list,
`lastHealthCheck = 0`, index 0. -/
def initCerebrasState : CerebrasState :=
  ⟨fun _ => initModelState, availableModels, 0, 0⟩

/-- `canUseModel` (lines 416-433): initialize missing counters, reset the
60-second window when expired, and test the per-model 15-requests/minute
limit.  Returns the answer and the (possibly window-reset) state. -/
def canUseModel (now : Nat) (st : ModelState) : Bool × ModelState :=
  let st1 := if st.requestCount = 0 then { st with requestWindow := now } else st
  let st2 := if now - st1.requestWindow > 60000
    then { st1 with requestCount := 0, requestWindow := now } else st1
  (st2.requestCount < 15, st2)

/-- `registerModelUsage` (lines 457-463). -/
def registerModelUsage (now : Nat) (m : String) (s : CerebrasState) : CerebrasState :=
  let st := s.models m
  let st1 := if st.requestCount = 0 then { st with requestWindow := now } else st
  { s with models := setModel s.models m { st1 with requestCount := st1.requestCount + 1 } }

/-- The body of the `filter` callback in `updateHealthyModels`
(lines 473-504) for one model: cooldown check, cooldown-expiry reset,
then the rate-limit gate.  Returns (keep in healthy list?, new state). -/
def healthFilterStep (now : Nat) (st : ModelState) : Bool × ModelState :=
  if 3 ≤ st.failureCount ∧ now - st.lastFailure < cooldownTime then
    (false, { st with health := false })
  else
    let st1 := if 3 ≤ st.failureCount ∧ cooldownTime ≤ now - st.lastFailure
      then { st with failureCount := 0, health := true } else st
    let cu := canUseModel now st1
    if cu.1 = false ∧ st1.health = true then (false, cu.2)
    else (cu.2.health, cu.2)

/-- `availableModels.filter(...)` with the callback's state effects
threaded left to right (lines 473-504). -/
def filterModels (now : Nat) : List String → (String → ModelState) →
    List String × (String → ModelState)
  | [], f => ([], f)
  | m :: ms, f =>
    let step := healthFilterStep now (f m)
    let rest := filterModels now ms (setModel f m step.2)
    (if step.1 then m :: rest.1 else rest.1, rest.2)

/-- `updateHealthyModels` (lines 465-515): throttled to once per 10
seconds; recompute the healthy list; if it came out empty, emergency-reset
every model to healthy with zero failures and use the full list. -/
def updateHealthyModels (now : Nat) (s : CerebrasState) : CerebrasState :=
  if now - s.lastHealthCheck < 10000 then s
  else
    let fm := filterModels now availableModels s.models
    if fm.1.length = 0 then
      { s with lastHealthCheck := now,
               models := fun m => if availableModels.contains m
                 then { fm.2 m with health := true, failureCount := 0 } else fm.2 m,
               healthyModels := availableModels }
    else
      { s with lastHealthCheck := now, models := fm.2, healthyModels := fm.1 }

/-- `recordModelFailure` (lines 517-528): bump the consecutive-failure
count, stamp the failure time, and mark unhealthy from the 3rd failure. -/
def recordModelFailure (now : Nat) (m : String) (s : CerebrasState) : CerebrasState :=
  let st := s.models m
  let st1 := { st with failureCount := st.failureCount + 1, lastFailure := now }
  let st2 := if 3 ≤ st1.failureCount then { st1 with health := false } else st1
  { s with models := setModel s.models m st2 }

/-- The success path of `chatWithCycling` (lines 853-856): reset the
failure count when it was positive. -/
def recordModelSuccess (m : String) (s : CerebrasState) : CerebrasState :=
  let st := s.models m
  if 0 < st.failureCount
  then { s with models := setModel s.models m { st with failureCount := 0 } }
  else s

/-- `getNextModelInCycle` (lines 530-542): refresh health, fall back to
the first configured model when the healthy list is empty, otherwise pick
round-robin and advance the index. -/
def getNextModelInCycle (now : Nat) (s : CerebrasState) : String × CerebrasState :=
  let s1 := updateHealthyModels now s
  if s1.healthyModels.length = 0 then
    (availableModels.headD "", s1)
  else
    let model := s1.healthyModels.getD (s1.currentModelIndex % s1.healthyModels.length) ""
    (model, { s1 with currentModelIndex := s1.currentModelIndex + 1 })

theorem setModel_self (f : String → ModelState) (m : String) (st : ModelState) :
    setModel f m st m = st := if_pos rfl

theorem setModel_other (f : String → ModelState) (m : String) (st : ModelState)
    (m' : String) (h : m' ≠ m) : setModel f m st m' = f m' := if_neg h

theorem recordModelFailure_models_self (t : Nat) (m : String) (s : CerebrasState) :
    (recordModelFailure t m s).models m =
      (if 3 ≤ (s.models m).failureCount + 1
       then { (s.models m) with
              failureCount := (s.models m).failureCount + 1
              lastFailure := t
              health := false }
       else { (s.models m) with
              failureCount := (s.models m).failureCount + 1
              lastFailure := t }) := by
  unfold recordModelFailure
  dsimp only
  rw [setModel_self]

theorem recordModelFailure_models_other (t : Nat) (m m' : String) (s : CerebrasState)
    (h : m' ≠ m) : (recordModelFailure t m s).models m' = s.models m' := by
  unfold recordModelFailure
  dsimp only
  rw [setModel_other _ _ _ _ h]

theorem recordModelFailure_lastHealthCheck (t : Nat) (m : String) (s : CerebrasState) :
    (recordModelFailure t m s).lastHealthCheck = s.lastHealthCheck := rfl

theorem recordModelSuccess_failureCount (m : String) (s : CerebrasState) :
    ((recordModelSuccess m s).models m).failureCount = 0 := by
  unfold recordModelSuccess
  dsimp only
  split
  · dsimp only
    rw [setModel_self]
  · next h => omega

/-- A model with zero failures, healthy flag set and a zero request
counter passes the health filter; only its request window is touched. -/
theorem healthFilterStep_healthy (now : Nat) (st : ModelState)
    (hf : st.failureCount = 0) (hh : st.health = true) (hr : st.requestCount = 0) :
    (healthFilterStep now st).1 = true ∧
    (healthFilterStep now st).2.health = true ∧
    (healthFilterStep now st).2.failureCount = 0 ∧
    (healthFilterStep now st).2.requestCount = 0 := by
  obtain ⟨rc, rw0, hl, fc, lf⟩ := st
  dsimp only at hf hh hr
  subst hf hh hr
  simp [healthFilterStep, canUseModel]

/-- A model with ≥ 3 failures whose cooldown has not elapsed is filtered
out and marked unhealthy; nothing else in its state changes. -/
theorem healthFilterStep_cooldown (now : Nat) (st : ModelState)
    (hf : 3 ≤ st.failureCount) (hc : now - st.lastFailure < cooldownTime) :
    (healthFilterStep now st).1 = false ∧
    (healthFilterStep now st).2 = { st with health := false } := by
  unfold healthFilterStep
  rw [if_pos ⟨hf, hc⟩]
  exact ⟨rfl, rfl⟩

/-- A model with ≥ 3 failures whose cooldown HAS elapsed (and whose
request counter is 0) is reset — zero failures, healthy — and kept. -/
theorem healthFilterStep_recovered (now : Nat) (st : ModelState)
    (hf : 3 ≤ st.failureCount) (hc : cooldownTime ≤ now - st.lastFailure)
    (hr : st.requestCount = 0) :
    (healthFilterStep now st).1 = true ∧
    (healthFilterStep now st).2.health = true ∧
    (healthFilterStep now st).2.failureCount = 0 ∧
    (healthFilterStep now st).2.requestCount = 0 := by
  obtain ⟨rc, rw0, hl, fc, lf⟩ := st
  dsimp only at hf hc hr
  subst hr
  simp [healthFilterStep, canUseModel, hf, hc,
    (show ¬(now - lf < cooldownTime) by omega)]

theorem filterModels_map_not_mem (now : Nat) (ms : List String)
    (f : String → ModelState) (m : String) (h : m ∉ ms) :
    (filterModels now ms f).2 m = f m := by
  induction ms generalizing f with
  | nil => rfl
  | cons m' ms' ih =>
    unfold filterModels
    dsimp only
    rw [ih _ (fun hmem => h (List.mem_cons_of_mem m' hmem)),
      setModel_other _ _ _ _ (fun he => h (by rw [he]; exact List.mem_cons_self m' ms'))]

theorem filterModels_not_mem_result (now : Nat) (ms : List String)
    (f : String → ModelState) (m : String) (h : m ∉ ms) :
    m ∉ (filterModels now ms f).1 := by
  induction ms generalizing f with
  | nil => intro hc; exact List.not_mem_nil m hc
  | cons m' ms' ih =>
    unfold filterModels
    dsimp only
    have hne : m ≠ m' := fun he => h (he ▸ List.mem_cons_self m' ms')
    have hnm : m ∉ ms' := fun hmem => h (List.mem_cons_of_mem m' hmem)
    split
    · intro hc
      rcases List.mem_cons.1 hc with he | hmem
      · exact hne he
      · exact ih _ hnm hmem
    · exact ih _ hnm

theorem filterModels_subset (now : Nat) (ms : List String) (f : String → ModelState) :
    ∀ x ∈ (filterModels now ms f).1, x ∈ ms := by
  induction ms generalizing f with
  | nil => intro x hx; exact absurd hx (List.not_mem_nil x)
  | cons m' ms' ih =>
    unfold filterModels
    dsimp only
    intro x hx
    split at hx
    · rcases List.mem_cons.1 hx with he | hmem
      · exact he ▸ List.mem_cons_self m' ms'
      · exact List.mem_cons_of_mem m' (ih _ x hmem)
    · exact List.mem_cons_of_mem m' (ih _ x hx)

theorem filterModels_mem_result (now : Nat) (ms : List String)
    (f : String → ModelState) (m : String) (hnd : ms.Nodup) (hm : m ∈ ms) :
    (m ∈ (filterModels now ms f).1 ↔ (healthFilterStep now (f m)).1 = true) := by
  induction ms generalizing f with
  | nil => cases hm
  | cons m' ms' ih =>
    rcases List.mem_cons.1 hm with rfl | hmem
    · have hnm : m ∉ ms' := (List.nodup_cons.1 hnd).1
      unfold filterModels
      dsimp only
      constructor
      · intro hres
        by_contra hstep
        rw [if_neg hstep] at hres
        exact filterModels_not_mem_result now ms' _ m hnm hres
      · intro hstep
        rw [if_pos hstep]
        exact List.mem_cons_self _ _
    · have hne : m ≠ m' := fun he => (List.nodup_cons.1 hnd).1 (by rw [← he]; exact hmem)
      unfold filterModels
      dsimp only
      constructor
      · intro hres
        have hmem' : m ∈ (filterModels now ms'
            (setModel f m' (healthFilterStep now (f m')).2)).1 := by
          by_cases hc : (healthFilterStep now (f m')).1 = true
          · rw [if_pos hc] at hres
            rcases List.mem_cons.1 hres with he | h'
            · exact absurd he hne
            · exact h'
          · rwa [if_neg hc] at hres
        have := (ih (setModel f m' (healthFilterStep now (f m')).2)
          (List.nodup_cons.1 hnd).2 hmem).1 hmem'
        rwa [setModel_other _ _ _ _ hne] at this
      · intro hstep
        have hmem' := (ih (setModel f m' (healthFilterStep now (f m')).2)
          (List.nodup_cons.1 hnd).2 hmem).2
          (by rwa [setModel_other _ _ _ _ hne])
        by_cases hc : (healthFilterStep now (f m')).1 = true
        · rw [if_pos hc]
          exact List.mem_cons_of_mem m' hmem'
        · rwa [if_neg hc]

theorem filterModels_map_mem (now : Nat) (ms : List String)
    (f : String → ModelState) (m : String) (hnd : ms.Nodup) (hm : m ∈ ms) :
    (filterModels now ms f).2 m = (healthFilterStep now (f m)).2 := by
  induction ms generalizing f with
  | nil => cases hm
  | cons m' ms' ih =>
    rcases List.mem_cons.1 hm with rfl | hmem
    · have hnm : m ∉ ms' := (List.nodup_cons.1 hnd).1
      unfold filterModels
      dsimp only
      rw [filterModels_map_not_mem now ms' _ m hnm, setModel_self]
    · have hne : m ≠ m' := fun he => (List.nodup_cons.1 hnd).1 (by rw [← he]; exact hmem)
      unfold filterModels
      dsimp only
      rw [ih _ (List.nodup_cons.1 hnd).2 hmem, setModel_other _ _ _ _ hne]

theorem availableModels_nodup : availableModels.Nodup := by decide

/-! ### C2 theorems -/

/-- C2 (confirmed): the per-model failure/cooldown state machine.  For any
model `m` of the configured list starting with a clean failure record
(and a second clean model `m2` so the healthy list cannot trigger the
emergency reset), after recording 2 consecutive failures `m` is still
healthy, the 3rd consecutive failure (at time `t3`) marks it unhealthy;
at a health recomputation time `tc` inside the 2-minute cooldown (and
past the 10-second throttle) `m` is excluded from the round-robin healthy
list; at a later recomputation time `th` with the cooldown elapsed, `m`'s
failure count is reset to 0 and it re-enters the healthy list; and a
success resets the consecutive-failure counter to zero. -/
theorem c2_cooldown_state_machine
    (s0 : CerebrasState) (m m2 : String) (t1 t2 t3 tc th : Nat)
    (hm : m ∈ availableModels) (hm2 : m2 ∈ availableModels) (hne : m2 ≠ m)
    (h0fail : (s0.models m).failureCount = 0)
    (h0health : (s0.models m).health = true)
    (h0req : (s0.models m).requestCount = 0)
    (h2fail : (s0.models m2).failureCount = 0)
    (h2health : (s0.models m2).health = true)
    (h2req : (s0.models m2).requestCount = 0)
    (hth1 : 10000 ≤ tc - s0.lastHealthCheck)
    (hcool : tc - t3 < cooldownTime)
    (hth2 : 10000 ≤ th - tc)
    (hel : cooldownTime ≤ th - t3) :
    (((recordModelFailure t2 m (recordModelFailure t1 m s0)).models m).failureCount = 2 ∧
      ((recordModelFailure t2 m (recordModelFailure t1 m s0)).models m).health = true) ∧
    (((recordModelFailure t3 m (recordModelFailure t2 m
        (recordModelFailure t1 m s0))).models m).failureCount = 3 ∧
      ((recordModelFailure t3 m (recordModelFailure t2 m
        (recordModelFailure t1 m s0))).models m).health = false) ∧
    m ∉ (updateHealthyModels tc (recordModelFailure t3 m (recordModelFailure t2 m
        (recordModelFailure t1 m s0)))).healthyModels ∧
    (m ∈ (updateHealthyModels th (updateHealthyModels tc (recordModelFailure t3 m
        (recordModelFailure t2 m (recordModelFailure t1 m s0))))).healthyModels ∧
      (((updateHealthyModels th (updateHealthyModels tc (recordModelFailure t3 m
        (recordModelFailure t2 m (recordModelFailure t1 m s0))))).models m).failureCount = 0 ∧
      ((updateHealthyModels th (updateHealthyModels tc (recordModelFailure t3 m
        (recordModelFailure t2 m (recordModelFailure t1 m s0))))).models m).health = true)) ∧
    ((recordModelSuccess m (recordModelFailure t2 m
        (recordModelFailure t1 m s0))).models m).failureCount = 0 := by
  have e1 : (recordModelFailure t1 m s0).models m =
      { (s0.models m) with failureCount := 1, lastFailure := t1 } := by
    rw [recordModelFailure_models_self, h0fail]
    norm_num
  have e2 : (recordModelFailure t2 m (recordModelFailure t1 m s0)).models m =
      { (s0.models m) with failureCount := 2, lastFailure := t2 } := by
    rw [recordModelFailure_models_self, e1]
    norm_num
  have e3 : (recordModelFailure t3 m (recordModelFailure t2 m
      (recordModelFailure t1 m s0))).models m =
      { (s0.models m) with failureCount := 3, lastFailure := t3, health := false } := by
    rw [recordModelFailure_models_self, e2]
    norm_num
  set s3 := recordModelFailure t3 m (recordModelFailure t2 m (recordModelFailure t1 m s0))
    with hs3
  have hlhc3 : s3.lastHealthCheck = s0.lastHealthCheck := rfl
  have hm2state : s3.models m2 = s0.models m2 := by
    rw [hs3, recordModelFailure_models_other _ _ _ _ hne,
      recordModelFailure_models_other _ _ _ _ hne,
      recordModelFailure_models_other _ _ _ _ hne]
  have hstep2 := healthFilterStep_healthy tc (s3.models m2)
    (by rw [hm2state]; exact h2fail) (by rw [hm2state]; exact h2health)
    (by rw [hm2state]; exact h2req)
  have hm2mem : m2 ∈ (filterModels tc availableModels s3.models).1 :=
    (filterModels_mem_result tc availableModels s3.models m2
      availableModels_nodup hm2).2 hstep2.1
  have hne0 : ¬((filterModels tc availableModels s3.models).1.length = 0) := by
    intro h
    rw [List.length_eq_zero.1 h] at hm2mem
    exact List.not_mem_nil m2 hm2mem
  have hstepm := healthFilterStep_cooldown tc (s3.models m)
    (by rw [e3]) (by rw [e3]; exact hcool)
  have hmnot : m ∉ (filterModels tc availableModels s3.models).1 := by
    rw [filterModels_mem_result tc availableModels s3.models m availableModels_nodup hm]
    simp [hstepm.1]
  have hupd1 : updateHealthyModels tc s3 =
      { s3 with
        lastHealthCheck := tc
        models := (filterModels tc availableModels s3.models).2
        healthyModels := (filterModels tc availableModels s3.models).1 } := by
    unfold updateHealthyModels
    rw [if_neg (by rw [hlhc3]; omega)]
    dsimp only
    rw [if_neg hne0]
  have e4 : (updateHealthyModels tc s3).models m =
      { (s0.models m) with failureCount := 3, lastFailure := t3, health := false } := by
    rw [hupd1]
    dsimp only
    rw [filterModels_map_mem tc availableModels s3.models m availableModels_nodup hm,
      hstepm.2, e3]
  set s4 := updateHealthyModels tc s3 with hs4
  have hlhc4 : s4.lastHealthCheck = tc := by rw [hupd1]
  have hstepm' := healthFilterStep_recovered th (s4.models m)
    (by rw [e4]) (by rw [e4]; exact hel) (by rw [e4]; exact h0req)
  have hmmem' : m ∈ (filterModels th availableModels s4.models).1 :=
    (filterModels_mem_result th availableModels s4.models m
      availableModels_nodup hm).2 hstepm'.1
  have hne0' : ¬((filterModels th availableModels s4.models).1.length = 0) := by
    intro h
    rw [List.length_eq_zero.1 h] at hmmem'
    exact List.not_mem_nil m hmmem'
  have hupd2 : updateHealthyModels th s4 =
      { s4 with
        lastHealthCheck := th
        models := (filterModels th availableModels s4.models).2
        healthyModels := (filterModels th availableModels s4.models).1 } := by
    unfold updateHealthyModels
    rw [if_neg (by rw [hlhc4]; omega)]
    dsimp only
    rw [if_neg hne0']
  refine ⟨⟨by rw [e2], by rw [e2]; exact h0health⟩,
    ⟨by rw [e3], by rw [e3]⟩, ?_, ⟨?_, ?_, ?_⟩,
    recordModelSuccess_failureCount m _⟩
  · rw [hupd1]
    exact hmnot
  · rw [hupd2]
    exact hmmem'
  · rw [hupd2]
    dsimp only
    rw [filterModels_map_mem th availableModels s4.models m availableModels_nodup hm]
    exact hstepm'.2.2.1
  · rw [hupd2]
    dsimp only
    rw [filterModels_map_mem th availableModels s4.models m availableModels_nodup hm]
    exact hstepm'.2.1

/-- C2 witness: the state-machine theorem applied to the freshly
initialized service, failing `llama-3.3-70b` three times at t=20000ms,
checking health at t=30000ms (inside cooldown: excluded) and at
t=200000ms (cooldown over: selectable again). -/
theorem c2_cooldown_state_machine_witness :
    ("llama-3.3-70b" ∈ availableModels ∧
      (initCerebrasState.models "llama-3.3-70b").failureCount = 0 ∧
      10000 ≤ 30000 - initCerebrasState.lastHealthCheck ∧
      30000 - 20000 < cooldownTime ∧ cooldownTime ≤ 200000 - 20000) ∧
    "llama-3.3-70b" ∉ (updateHealthyModels 30000 (recordModelFailure 20000 "llama-3.3-70b"
      (recordModelFailure 20000 "llama-3.3-70b" (recordModelFailure 20000 "llama-3.3-70b"
        initCerebrasState)))).healthyModels ∧
    "llama-3.3-70b" ∈ (updateHealthyModels 200000 (updateHealthyModels 30000
      (recordModelFailure 20000 "llama-3.3-70b" (recordModelFailure 20000 "llama-3.3-70b"
        (recordModelFailure 20000 "llama-3.3-70b" initCerebrasState))))).healthyModels := by
  have h := c2_cooldown_state_machine initCerebrasState "llama-3.3-70b" "llama-3.1-8b"
    20000 20000 20000 30000 200000 (by decide) (by decide) (by decide) (by decide)
    (by decide) (by decide) (by decide) (by decide) (by decide) (by decide) (by decide)
    (by decide) (by decide)
  exact ⟨⟨by decide, by decide, by decide, by decide, by decide⟩, h.2.2.1, h.2.2.2.1.1⟩

theorem updateHealthyModels_healthy_subset (now : Nat) (s : CerebrasState)
    (h : ∀ x ∈ s.healthyModels, x ∈ availableModels) :
    ∀ x ∈ (updateHealthyModels now s).healthyModels, x ∈ availableModels := by
  unfold updateHealthyModels
  split
  · exact h
  · dsimp only
    split
    · intro x hx
      exact hx
    · intro x hx
      exact filterModels_subset now availableModels s.models x hx

/-! ### C10 theorems -/

/-- C10 (confirmed): if the health recomputation's filter leaves the
healthy-model list empty, the emergency reset marks every configured
model healthy with zero failures and restores the full list — so a model
whose 2-minute cooldown has not yet elapsed becomes selectable again —
and round-robin selection always returns a configured model (falling back
to the first configured model even if the list were empty). -/
theorem c10_emergency_reset_nonempty_cycle :
    (∀ (now : Nat) (s : CerebrasState), ¬(now - s.lastHealthCheck < 10000) →
      (filterModels now availableModels s.models).1 = [] →
      (updateHealthyModels now s).healthyModels = availableModels ∧
      ∀ m ∈ availableModels, ((updateHealthyModels now s).models m).health = true ∧
        ((updateHealthyModels now s).models m).failureCount = 0) ∧
    (∀ (now : Nat) (s : CerebrasState) (m : String),
      ¬(now - s.lastHealthCheck < 10000) →
      (filterModels now availableModels s.models).1 = [] →
      m ∈ availableModels → now - (s.models m).lastFailure < cooldownTime →
      m ∈ (updateHealthyModels now s).healthyModels) ∧
    (∀ (now : Nat) (s : CerebrasState),
      (∀ x ∈ s.healthyModels, x ∈ availableModels) →
      (getNextModelInCycle now s).1 ∈ availableModels) := by
  have part1 : ∀ (now : Nat) (s : CerebrasState), ¬(now - s.lastHealthCheck < 10000) →
      (filterModels now availableModels s.models).1 = [] →
      (updateHealthyModels now s).healthyModels = availableModels ∧
      ∀ m ∈ availableModels, ((updateHealthyModels now s).models m).health = true ∧
        ((updateHealthyModels now s).models m).failureCount = 0 := by
    intro now s hthr hempty
    unfold updateHealthyModels
    rw [if_neg hthr]
    dsimp only
    rw [if_pos (by rw [hempty]; rfl)]
    refine ⟨rfl, ?_⟩
    intro m hm
    dsimp only
    rw [if_pos (List.elem_eq_true_of_mem hm)]
    exact ⟨rfl, rfl⟩
  refine ⟨part1, ?_, ?_⟩
  · intro now s m hthr hempty hm _
    rw [(part1 now s hthr hempty).1]
    exact hm
  · intro now s hsub
    have hsub' := updateHealthyModels_healthy_subset now s hsub
    unfold getNextModelInCycle
    dsimp only
    split
    · exact (by decide : availableModels.headD "" ∈ availableModels)
    · next hne =>
      have hlen : 0 < (updateHealthyModels now s).healthyModels.length :=
        Nat.pos_of_ne_zero hne
      have hidx : (updateHealthyModels now s).currentModelIndex %
          (updateHealthyModels now s).healthyModels.length <
          (updateHealthyModels now s).healthyModels.length :=
        Nat.mod_lt _ hlen
      dsimp only
      rw [List.getD_eq_getElem _ _ hidx]
      exact hsub' _ (List.getElem_mem hidx)

/-- C10 witness: at t=60000ms on a state whose 4 models all carry 3
failures stamped at t=50000ms (every cooldown still pending, filter
result empty), the emergency reset restores all 4 models; and selection
on the fresh service state returns a configured model. -/
theorem c10_emergency_reset_nonempty_cycle_witness :
    (¬((60000:Nat) - (⟨fun _ => ⟨0, 0, false, 3, 50000⟩, [], 0, 0⟩ :
        CerebrasState).lastHealthCheck < 10000) ∧
      (filterModels 60000 availableModels
        (⟨fun _ => ⟨0, 0, false, 3, 50000⟩, [], 0, 0⟩ : CerebrasState).models).1 = []) ∧
    (updateHealthyModels 60000
      (⟨fun _ => ⟨0, 0, false, 3, 50000⟩, [], 0, 0⟩ : CerebrasState)).healthyModels =
      availableModels ∧
    "qwen-3-32b" ∈ (updateHealthyModels 60000
      (⟨fun _ => ⟨0, 0, false, 3, 50000⟩, [], 0, 0⟩ : CerebrasState)).healthyModels ∧
    (getNextModelInCycle 0 initCerebrasState).1 ∈ availableModels := by
  refine ⟨⟨by decide, by decide⟩,
    (c10_emergency_reset_nonempty_cycle.1 60000 _ (by decide) (by decide)).1,
    c10_emergency_reset_nonempty_cycle.2.1 60000 _ "qwen-3-32b" (by decide) (by decide)
      (by decide) (by decide),
    c10_emergency_reset_nonempty_cycle.2.2 0 initCerebrasState (by decide)⟩

/-! ## The chat retry loop (`CerebrasAPIService.chatWithCycling`,
lines 745-872, and `removeThinkingTags`, lines 874-877)

Each HTTP attempt's outcome is an oracle `resp : Nat → ChatResponse`,
indexed by a global attempt counter threaded through the call tree (the
`k`-th attempt of the logical call observes `resp k`); the clock oracle
`nowAt` is indexed the same way.

The control structure of the source frame is: the recursion guard
`attemptCount > 10` (line 747) and the model pick sit BEFORE the `try`
(line 758); the retries on 429 (line 827) and on other non-2xx
(line 846) are `return await` calls INSIDE the `try`; the frame's
`catch` (lines 865-870) therefore catches any error thrown by such a
retry subtree — including the exhausted error from a deeper guard —
records one more failure for the frame's own model, and retries once
more, this time in catch position, from where an error propagates to the
caller.  The throw at line 823 (429 with an empty healthy list) is also
raised inside the frame's own `try`, so it too is caught by the frame's
own `catch` and converted into one more retry.  Consequently a frame at
`attemptCount ≤ 10` whose attempts keep failing spawns TWO failing
subtrees at `attemptCount + 1`, and a logical call entered at
`attemptCount = 0` makes up to `2 ^ 11 - 1 = 2047` HTTP attempts.

`chatWithCyclingGo` carries the explicit fuel `11 - attemptCount` so the
recursion is structural; every recursive call preserves that relation,
and at fuel `0` the guard `attemptCount > 10` necessarily holds and both
formulations return the exhausted error without an attempt, so
`chatWithCycling` computes exactly the source's recursion. -/

/-- `"<think>"`. -/
def thinkOpenTag : List Char := "<think>".data

/-- `"</think>"`. -/
def thinkCloseTag : List Char := "</think>".data

/-- Drop characters up to and including the first occurrence of `pat`;
`none` when `pat` never occurs. -/
def dropThrough (pat : List Char) : List Char → Option (List Char)
  | [] => if pat.isEmpty then some [] else none
  | c :: rest =>
    if listStartsWith (c :: rest) pat then some ((c :: rest).drop pat.length)
    else dropThrough pat rest

theorem dropThrough_length_le (pat : List Char) :
    ∀ l rem, dropThrough pat l = some rem → rem.length ≤ l.length := by
  intro l
  induction l with
  | nil =>
    intro rem h
    unfold dropThrough at h
    split at h
    · cases h
      exact Nat.le_refl 0
    · cases h
  | cons c rest ih =>
    intro rem h
    unfold dropThrough at h
    split at h
    · cases h
      rw [List.length_drop]
      exact Nat.sub_le _ _
    · exact Nat.le_trans (ih rem h) (Nat.le_succ _)

/-- The global non-greedy replacement
`content.replace(/<think>[\s\S]*?<\/think>\s*/g, '')`: at each position,
an opening tag with a later closing tag removes everything through the
closing tag and the following whitespace; an opening tag with no closing
tag anywhere later cannot be part of any match (nor can any later opening
tag), so the rest is kept verbatim. -/
def removeThinkAux : List Char → List Char
  | [] => []
  | c :: rest =>
    if listStartsWith (c :: rest) thinkOpenTag then
      match h : dropThrough thinkCloseTag ((c :: rest).drop thinkOpenTag.length) with
      | some rem => removeThinkAux (rem.dropWhile Char.isWhitespace)
      | none => c :: rest
    else c :: removeThinkAux rest
termination_by l => l.length
decreasing_by
  · have h1 := dropThrough_length_le thinkCloseTag _ _ h
    have h3 := (List.dropWhile_sublist (l := rem) Char.isWhitespace).length_le
    have h7 : thinkOpenTag.length = 7 := rfl
    simp only [List.length_drop, List.length_cons] at h1 ⊢
    omega
  · simp only [List.length_cons]
    omega

/-- `removeThinkingTags` (lines 874-877): strip think blocks, then
`trim()`. -/
def removeThinkingTags (content : String) : String :=
  String.mk (jsTrim (removeThinkAux content.data))

/-- One attempt's observable HTTP outcome inside `chatWithCycling`:
a 2xx body, a 429, another non-2xx status, or a thrown exception. -/
inductive ChatResponse where
  | ok (content : String)
  | status429
  | httpError (status : Nat)
  | exn
deriving Repr, DecidableEq

/-- The "all models exhausted" error (lines 749 and 823). -/
def cerebrasExhaustedMsg : String :=
  "Cerebras API rate limit exceeded on all available models. Please wait a moment and try again."

/-- The body of `chatWithCycling` (lines 745-872) with explicit fuel and
the global attempt counter `idx`: the `Date.now()` readings taken while
handling attempt `idx` are modelled by `nowAt idx`, and the reading the
`catch` takes after a failed retry subtree that ended at counter `j` by
`nowAt j` (timestamps never influence the claims proved here).  The
third result component is the final value of the attempt counter, so
`out.2.2 - idx` is the number of HTTP attempts the call made. -/
def chatWithCyclingGo (resp : Nat → ChatResponse) (nowAt : Nat → Nat)
    (prompt : String) (systemPrompt : Option String) :
    Nat → Nat → Nat → CerebrasState → Except String String × CerebrasState × Nat
  | 0, _, idx, s => (.error cerebrasExhaustedMsg, s, idx)
  | fuel + 1, attemptCount, idx, s =>
    if attemptCount > 10 then (.error cerebrasExhaustedMsg, s, idx)
    else
      let now := nowAt idx
      let picked := getNextModelInCycle now s
      let s2 := registerModelUsage now picked.1 picked.2
      let _adjusted := truncatePrompts prompt.data
        (systemPrompt.map String.data) picked.1
      match resp idx with
      | .ok content =>
        (.ok (removeThinkingTags content), recordModelSuccess picked.1 s2, idx + 1)
      | .status429 =>
        let s3 := updateHealthyModels now (recordModelFailure now picked.1 s2)
        if s3.healthyModels.length = 0 then
          -- line 823 throws inside this frame's own try: the catch at 865
          -- records one more failure and retries in catch position
          let s4 := recordModelFailure now picked.1 s3
          chatWithCyclingGo resp nowAt prompt systemPrompt fuel
            (attemptCount + 1) (idx + 1) s4
        else
          -- line 827: retry inside the try; an error from the subtree is
          -- caught at 865, one more failure recorded, and retried once
          -- more in catch position (line 870)
          let r := chatWithCyclingGo resp nowAt prompt systemPrompt fuel
            (attemptCount + 1) (idx + 1) s3
          match r.1 with
          | .ok _ => r
          | .error _ =>
            let s5 := recordModelFailure (nowAt r.2.2) picked.1 r.2.1
            chatWithCyclingGo resp nowAt prompt systemPrompt fuel
              (attemptCount + 1) r.2.2 s5
      | .httpError _ =>
        -- lines 830-846: record the status-specific failure, then retry
        -- inside the try; on a failing subtree the catch records one more
        -- failure and retries once more in catch position
        let s3 := recordModelFailure now picked.1 s2
        let r := chatWithCyclingGo resp nowAt prompt systemPrompt fuel
          (attemptCount + 1) (idx + 1) s3
        match r.1 with
        | .ok _ => r
        | .error _ =>
          let s5 := recordModelFailure (nowAt r.2.2) picked.1 r.2.1
          chatWithCyclingGo resp nowAt prompt systemPrompt fuel
            (attemptCount + 1) r.2.2 s5
      | .exn =>
        -- the try body itself threw (fetch / body parsing): caught at 865,
        -- one failure recorded, retried in catch position
        let s3 := recordModelFailure now picked.1 s2
        chatWithCyclingGo resp nowAt prompt systemPrompt fuel
          (attemptCount + 1) (idx + 1) s3

/-- `chatWithCycling(prompt, systemPrompt, attemptCount)`: the recursion
of lines 745-872 with the attempt counter starting at 0 (the public
`chat` entry point calls it with `attemptCount = 0`); the third result
component is the total number of HTTP attempts made. -/
def chatWithCycling (resp : Nat → ChatResponse) (nowAt : Nat → Nat)
    (prompt : String) (systemPrompt : Option String)
    (attemptCount : Nat) (s : CerebrasState) :
    Except String String × CerebrasState × Nat :=
  chatWithCyclingGo resp nowAt prompt systemPrompt (11 - attemptCount) attemptCount 0 s

theorem chatWithCyclingGo_result (resp : Nat → ChatResponse) (nowAt : Nat → Nat)
    (prompt : String) (systemPrompt : Option String) :
    ∀ fuel attemptCount idx s,
      (∃ t, (chatWithCyclingGo resp nowAt prompt systemPrompt
        fuel attemptCount idx s).1 = .ok t) ∨
      (chatWithCyclingGo resp nowAt prompt systemPrompt fuel attemptCount idx s).1 =
        .error cerebrasExhaustedMsg := by
  intro fuel
  induction fuel with
  | zero => intro a idx s; exact Or.inr rfl
  | succ n ih =>
    intro a idx s
    unfold chatWithCyclingGo
    split
    · exact Or.inr rfl
    · dsimp only
      cases hresp : resp idx with
      | ok content => exact Or.inl ⟨_, rfl⟩
      | status429 =>
        dsimp only
        split
        · exact ih (a + 1) (idx + 1) _
        · split
          · next t heq => exact Or.inl ⟨t, heq⟩
          · exact ih (a + 1) _ _
      | httpError st =>
        dsimp only
        split
        · next t heq => exact Or.inl ⟨t, heq⟩
        · exact ih (a + 1) _ _
      | exn =>
        dsimp only
        exact ih (a + 1) (idx + 1) _

theorem chatWithCyclingGo_counter_bounds (resp : Nat → ChatResponse) (nowAt : Nat → Nat)
    (prompt : String) (systemPrompt : Option String) :
    ∀ fuel attemptCount idx s,
      idx ≤ (chatWithCyclingGo resp nowAt prompt systemPrompt
        fuel attemptCount idx s).2.2 ∧
      (chatWithCyclingGo resp nowAt prompt systemPrompt fuel attemptCount idx s).2.2 ≤
        idx + (2 ^ fuel - 1) := by
  intro fuel
  induction fuel with
  | zero =>
    intro a idx s
    refine ⟨Nat.le_refl idx, ?_⟩
    show idx ≤ idx + (2 ^ 0 - 1)
    norm_num
  | succ n ih =>
    intro a idx s
    have hpos : 0 < 2 ^ n := pow_pos (by norm_num) n
    have hsucc : (2 : Nat) ^ (n + 1) = 2 * 2 ^ n := by
      rw [pow_succ, Nat.mul_comm]
    have hstep : ∀ (j : Nat) (s' : CerebrasState), idx + 1 ≤ j →
        j ≤ idx + 1 + (2 ^ n - 1) →
        idx ≤ (chatWithCyclingGo resp nowAt prompt systemPrompt n (a + 1) j s').2.2 ∧
        (chatWithCyclingGo resp nowAt prompt systemPrompt n (a + 1) j s').2.2 ≤
          idx + (2 ^ (n + 1) - 1) := by
      intro j s' hj1 hj2
      obtain ⟨hA, hB⟩ := ih (a + 1) j s'
      exact ⟨by omega, by omega⟩
    unfold chatWithCyclingGo
    split
    · refine ⟨Nat.le_refl idx, ?_⟩
      show idx ≤ idx + (2 ^ (n + 1) - 1)
      omega
    · dsimp only
      cases hresp : resp idx with
      | ok content =>
        refine ⟨Nat.le_succ idx, ?_⟩
        show idx + 1 ≤ idx + (2 ^ (n + 1) - 1)
        omega
      | status429 =>
        dsimp only
        split
        · exact ⟨le_trans (Nat.le_succ idx) (ih (a + 1) (idx + 1) _).1,
            le_trans (ih (a + 1) (idx + 1) _).2 (by omega)⟩
        · split
          · exact ⟨le_trans (Nat.le_succ idx) (ih (a + 1) (idx + 1) _).1,
              le_trans (ih (a + 1) (idx + 1) _).2 (by omega)⟩
          · exact hstep _ _ (ih (a + 1) (idx + 1) _).1 (ih (a + 1) (idx + 1) _).2
      | httpError st =>
        dsimp only
        split
        · exact ⟨le_trans (Nat.le_succ idx) (ih (a + 1) (idx + 1) _).1,
            le_trans (ih (a + 1) (idx + 1) _).2 (by omega)⟩
        · exact hstep _ _ (ih (a + 1) (idx + 1) _).1 (ih (a + 1) (idx + 1) _).2
      | exn =>
        dsimp only
        exact ⟨le_trans (Nat.le_succ idx) (ih (a + 1) (idx + 1) _).1,
          le_trans (ih (a + 1) (idx + 1) _).2 (by omega)⟩

/-- On an oracle whose every attempt fails with a non-2xx status, a frame
with fuel `n + 1` makes 1 attempt plus two failing subtrees (the in-try
retry and the catch retry), so the whole call makes `2 ^ fuel - 1`
attempts and ends with the exhausted error. -/
theorem chatWithCyclingGo_all500 (nowAt : Nat → Nat) (prompt : String)
    (systemPrompt : Option String) :
    ∀ fuel attemptCount idx s, attemptCount + fuel = 11 →
      (chatWithCyclingGo (fun _ => ChatResponse.httpError 500) nowAt prompt systemPrompt
          fuel attemptCount idx s).1 = .error cerebrasExhaustedMsg ∧
      (chatWithCyclingGo (fun _ => ChatResponse.httpError 500) nowAt prompt systemPrompt
          fuel attemptCount idx s).2.2 = idx + (2 ^ fuel - 1) := by
  intro fuel
  induction fuel with
  | zero =>
    intro a idx s ha
    refine ⟨rfl, ?_⟩
    show idx = idx + (2 ^ 0 - 1)
    norm_num
  | succ n ih =>
    intro a idx s ha
    have hpos : 0 < 2 ^ n := pow_pos (by norm_num) n
    have hsucc : (2 : Nat) ^ (n + 1) = 2 * 2 ^ n := by
      rw [pow_succ, Nat.mul_comm]
    unfold chatWithCyclingGo
    rw [if_neg (by omega : ¬(a > 10))]
    dsimp only
    split
    · next t heq =>
      rw [(ih (a + 1) (idx + 1) _ (by omega)).1] at heq
      exact Except.noConfusion heq
    · constructor
      · exact (ih (a + 1) _ _ (by omega)).1
      · rw [(ih (a + 1) _ _ (by omega)).2, (ih (a + 1) _ _ (by omega)).2]
        omega

/-! ### C3 theorems -/

/-- C3, counterexample: the retry cap is not 10 attempts (nor 11): the
recursive retries at lines 827/846 sit inside the `try`, so a deeper
exhausted throw is caught at line 865 and retried once more per frame —
each frame with `attemptCount ≤ 10` contributes 1 attempt plus two
failing subtrees.  Starting from `attemptCount = 0` with every attempt
answered by a non-2xx response, the call makes `2 ^ 11 - 1 = 2047` HTTP
attempts before the all-models-exhausted error finally propagates. -/
theorem c3_attempts_2047_counterexample :
    (chatWithCycling (fun _ => ChatResponse.httpError 500) (fun _ => 0) "p" none 0
      initCerebrasState).2.2 = 2047 ∧
    (chatWithCycling (fun _ => ChatResponse.httpError 500) (fun _ => 0) "p" none 0
      initCerebrasState).1 = .error cerebrasExhaustedMsg ∧
    (2047 : Nat) > 10 := by
  have h := chatWithCyclingGo_all500 (fun _ => 0) "p" none 11 0 0 initCerebrasState
    (by norm_num)
  exact ⟨h.2.trans (by norm_num), h.1, by norm_num⟩

/-- C3 (amended): a single logical `chatWithCycling` call (entered with
`attemptCount = 0`) retries on HTTP 429, any non-2xx response, or an
exception; the `attemptCount > 10` guard bounds each retry chain at 11
frames, but because the retries at lines 827/846 run inside the `try`,
the frame's `catch` (line 865) converts a failed subtree into one more
retry, so the call makes at most `2 ^ 11 - 1 = 2047` HTTP attempts — not
10 — and always terminates with either a text result or the fatal
all-models-exhausted error (every error it can produce is that message)
rather than retrying indefinitely. -/
theorem c3_attempt_bound_and_termination (resp : Nat → ChatResponse) (nowAt : Nat → Nat)
    (prompt : String) (systemPrompt : Option String) (attemptCount : Nat)
    (s : CerebrasState) :
    (chatWithCycling resp nowAt prompt systemPrompt attemptCount s).2.2 ≤
      2 ^ (11 - attemptCount) - 1 ∧
    ((∃ t, (chatWithCycling resp nowAt prompt systemPrompt attemptCount s).1 = .ok t) ∨
      (chatWithCycling resp nowAt prompt systemPrompt attemptCount s).1 =
        .error cerebrasExhaustedMsg) := by
  refine ⟨?_, chatWithCyclingGo_result resp nowAt prompt systemPrompt _ attemptCount 0 s⟩
  have h := (chatWithCyclingGo_counter_bounds resp nowAt prompt systemPrompt
    (11 - attemptCount) attemptCount 0 s).2
  exact le_trans h (by omega)

end DeepResearch
